import Mathlib

/-!
Shallow embedding of the provider-dispatch-and-cache layer of the CodeViz
LLM client: `src/utils/call_llm.py` and the three adapter modules under
`src/utils/llm_providers/`.  File I/O, the network and the logging sink are
made explicit: the on-disk cache file is a `CacheFile` value threaded
through `call_llm`, the behaviour of the three provider functions is a
parameter of `DispatchEnv`, and log records become a list of `LogEvent`s in
the result.  Environment variables are a partial map `String → Option
String`.
-/

/-- Python exception classes raised by the provider adapter functions:
`ValueError` for a missing API key (the spec's `MissingCredentialError`),
plain `Exception` otherwise (the spec's `ProviderError`).  The payload is
the exception's message string. -/
inductive AdapterError where
  | missingCredential (msg : String)
  | providerError (msg : String)
deriving DecidableEq

/-- Exceptions that can escape `call_llm`: the `ValueError` raised for an
unknown provider (the spec's `UnknownProviderError`), or an adapter
exception re-raised by the bare `raise` on line 91. -/
inductive CallError where
  | unknownProvider (msg : String)
  | fromAdapter (e : AdapterError)
deriving DecidableEq

/-- States of the on-disk cache file `llm_cache.json`: missing
(`os.path.exists` is false), present but rejected by `json.load`, or a
parsed JSON object of string keys and string values. -/
inductive CacheFile where
  | absent
  | corrupt
  | snapshot (entries : List (String × String))
deriving DecidableEq

/-- Embedding of `os.path.exists(CACHE_FILE)`. -/
def CacheFile.fileExists : CacheFile → Bool
  | .absent => false
  | .corrupt => true
  | .snapshot _ => true

/-- One record sent to the logging sink by `call_llm` (the per-provider tag
passed via `extra=` is omitted; the message text is kept where a claim
refers to it). -/
inductive LogEvent where
  | errorInvalidProvider (name : String)
  | promptLogged (text : String)
  | warnCacheLoadFailed
  | responseCached (text : String)
  | errorProvider (e : AdapterError)
  | responseAPI (text : String)
  | warnSaveLoadFailed
  | errorCacheSaveFailed
deriving DecidableEq

/-- Python `str.lower()` as used on provider identifiers, character by
character over the ASCII range (all registered identifiers are ASCII). -/
def pyLower (s : String) : String := ⟨s.data.map Char.toLower⟩

/-- The key set of `PROVIDER_MAP` (call_llm.py lines 39-43).  The adapter
functions the dict maps to are abstracted as the `adapters` field of
`DispatchEnv`. -/
def PROVIDER_MAP : List String := ["openrouter", "groq", "togetherai"]

/-- The list rendering `['openrouter', 'groq', 'togetherai']` of
`list(PROVIDER_MAP.keys())`, as interpolated into the invalid-provider
message. -/
def availRendering : String :=
  "[\x27openrouter\x27, \x27groq\x27, \x27togetherai\x27]"

/-- The `ValueError` message of call_llm.py line 56. -/
def invalidProviderMsg (name : String) : String :=
  "Invalid provider: " ++ name ++ ". Available providers: " ++ availRendering

/-- Substring occurrence: `sub` occurs contiguously inside `s`. -/
def containsStr (s sub : String) : Prop :=
  ∃ pre post : List Char, s.data = pre ++ sub.data ++ post

/-- Embedding of the key derivation on line 66 of call_llm.py:
the provider name and the prompt joined by an underscore. -/
def cacheKey (name prompt : String) : String := name ++ "_" ++ prompt

/-- Python dict lookup on the parsed JSON-object cache
(`cache[cache_key]`, with `cache_key in cache` as `Option.isSome`). -/
def lookupEntry : List (String × String) → String → Option String
  | [], _ => none
  | e :: es, k => if e.1 = k then some e.2 else lookupEntry es k

/-- Python dict assignment `current_cache[cache_key] = response_text` on a
JSON object (keys unique): overwrite the binding if the key is present,
append a new one otherwise. -/
def insertEntry : List (String × String) → String → String → List (String × String)
  | [], k, v => [(k, v)]
  | e :: es, k, v => if e.1 = k then (k, v) :: es else e :: insertEntry es k v

/-- Lines 69-75 and 96-102: start from `{}`; if the file exists try
`json.load`, logging a warning and keeping `{}` on failure.  Returns the
loaded entries and whether the load-failure warning fired. -/
def loadCache : CacheFile → List (String × String) × Bool
  | .absent => ([], false)
  | .corrupt => ([], true)
  | .snapshot es => (es, false)

/-- The ambient state `call_llm` closes over: the validated
`DEFAULT_PROVIDER`, the behaviour of the provider functions in
`PROVIDER_MAP` (returned text or raised exception, per provider name and
prompt), and whether `open(CACHE_FILE, "w")` fails (e.g. a read-only
filesystem). -/
structure DispatchEnv where
  defaultProvider : String
  adapters : String → String → Except AdapterError String
  writeFails : Bool

/-- Embedding of `(provider or DEFAULT_PROVIDER).lower()` (line 53): `None` and the
falsy empty string both fall back to the default. -/
def resolveName (provider : Option String) (dflt : String) : String :=
  pyLower (match provider with
           | none => dflt
           | some p => if p = "" then dflt else p)

/-- Everything observable about one `call_llm` invocation: the returned
text or escaped exception, the cache file afterwards, whether the selected
provider function was invoked, whether the cache file was opened for
reading, whether a new snapshot was successfully written, and the log
records emitted. -/
structure CallResult where
  ret : Except CallError String
  cacheAfter : CacheFile
  adapterInvoked : Bool
  readFile : Bool
  wroteFile : Bool
  logs : List LogEvent

/-- Lines 82-111: invoke the provider function; on an exception log and
re-raise it; on success log the response and, when `use_cache`, re-load the
file, insert the entry and write the snapshot back, absorbing a write
failure into an error log.  `use_cache` also tells whether the earlier
cache-read phase already opened the file. -/
def invokeAndMaybeCache (env : DispatchEnv) (name prompt key : String)
    (use_cache : Bool) (file : CacheFile) (logs : List LogEvent) : CallResult :=
  match env.adapters name prompt with
  | .error e =>
      { ret := .error (.fromAdapter e), cacheAfter := file, adapterInvoked := true,
        readFile := use_cache && file.fileExists, wroteFile := false,
        logs := logs ++ [LogEvent.errorProvider e] }
  | .ok response_text =>
      if use_cache then
        let loaded := loadCache file
        let logs2 := (logs ++ [LogEvent.responseAPI response_text]) ++
          (if loaded.2 then [LogEvent.warnSaveLoadFailed] else [])
        if env.writeFails then
          { ret := .ok response_text, cacheAfter := file, adapterInvoked := true,
            readFile := file.fileExists, wroteFile := false,
            logs := logs2 ++ [LogEvent.errorCacheSaveFailed] }
        else
          { ret := .ok response_text,
            cacheAfter := .snapshot (insertEntry loaded.1 key response_text),
            adapterInvoked := true,
            readFile := file.fileExists, wroteFile := true, logs := logs2 }
      else
        { ret := .ok response_text, cacheAfter := file, adapterInvoked := true,
          readFile := false, wroteFile := false,
          logs := logs ++ [LogEvent.responseAPI response_text] }

/-- Lines 61-111 for a provider name already validated against
`PROVIDER_MAP`: log the prompt, and when `use_cache` consult the cache,
returning immediately on a hit. -/
def dispatchKnown (env : DispatchEnv) (name prompt : String)
    (use_cache : Bool) (file : CacheFile) : CallResult :=
  let key := cacheKey name prompt
  let baseLogs := [LogEvent.promptLogged prompt]
  if use_cache then
    let loaded := loadCache file
    let logs2 := baseLogs ++ (if loaded.2 then [LogEvent.warnCacheLoadFailed] else [])
    match lookupEntry loaded.1 key with
    | some cached =>
        { ret := .ok cached, cacheAfter := file, adapterInvoked := false,
          readFile := file.fileExists, wroteFile := false,
          logs := logs2 ++ [LogEvent.responseCached cached] }
    | none => invokeAndMaybeCache env name prompt key true file logs2
  else invokeAndMaybeCache env name prompt key false file baseLogs

/-- Embedding of `call_llm(prompt, provider, use_cache)` (call_llm.py lines 52-111),
with the cache file passed in and the observable effects returned. -/
def call_llm (env : DispatchEnv) (prompt : String) (provider : Option String)
    (use_cache : Bool) (file : CacheFile) : CallResult :=
  let name := resolveName provider env.defaultProvider
  if PROVIDER_MAP.contains name then
    dispatchKnown env name prompt use_cache file
  else
    { ret := .error (.unknownProvider (invalidProviderMsg name)),
      cacheAfter := file, adapterInvoked := false, readFile := false,
      wroteFile := false, logs := [LogEvent.errorInvalidProvider name] }

/-! Embedding of the three provider adapter functions
(`llm_providers/openrouter.py`, `groq.py`, `togetherai.py`).  Environment
variables are a partial map; the outcome of the one network interaction is
a parameter (an `HttpResponse` for the raw-HTTP OpenRouter adapter, the
result of `chain.invoke` for the two SDK adapters), together with a flag
recording whether the network step was reached at all. -/

/-- A JSON value as produced by `response.json()` (Python objects from the
json module). -/
inductive JsonVal where
  | null
  | bool (b : Bool)
  | num (n : Int)
  | str (s : String)
  | arr (elems : List JsonVal)
  | obj (fields : List (String × JsonVal))

/-- Lookup of a key in a JSON object (Python `dict` access / `in`). -/
def jsonLookup : List (String × JsonVal) → String → Option JsonVal
  | [], _ => none
  | f :: fs, k => if f.1 = k then some f.2 else jsonLookup fs k

/-- Python truthiness of a json-module value, as tested by
`not response_json["choices"]`. -/
def JsonVal.truthy : JsonVal → Bool
  | .null => false
  | .bool b => b
  | .num n => !(n = 0)
  | .str s => !(s = "")
  | .arr xs => !xs.isEmpty
  | .obj fs => !fs.isEmpty

/-- What `requests.post` returned: HTTP status, raw body text, and the
parsed body (`none` when `response.json()` raises). -/
structure HttpResponse where
  status_code : Nat
  text : String
  jsonBody : Option JsonVal

/-- The process environment, as read by `os.getenv`. -/
structure ProviderEnv where
  getenv : String → Option String

/-- Observable outcome of one adapter invocation: the returned value or
raised exception, and whether the network step was reached. -/
structure AdapterOutcome (α : Type) where
  ret : Except AdapterError α
  networkCalled : Bool

/-- The wrapper message of openrouter.py lines 56-59: an exception `e`
raised inside the parsing `try` is caught and re-raised as
`f"Failed to parse OpenRouter response: {e}; Response: {response.text}"`. -/
def orWrap (e body : String) : String :=
  "Failed to parse OpenRouter response: " ++ e ++ "; Response: " ++ body

/-- Modelled message of the exception `json.decoder` raises when
`response.json()` fails on a non-JSON body (exact runtime text comes from
Python internals). -/
def jsonDecodeFailureMsg : String := "response body is not valid JSON"

/-- Modelled message of the TypeError/AttributeError/KeyError Python raises
when `choices[0]` or `.get` is applied to a value of the wrong shape (exact
runtime text comes from Python internals). -/
def badShapeMsg : String := "response JSON has an unexpected shape"

/-- openrouter.py lines 41-59: the parsing `try` block run on a status-200
response.  Raises inside the block (including the explicit ones) are caught
by `except Exception` and re-raised wrapped by `orWrap`. -/
def parseOpenrouter200 (resp : HttpResponse) : Except AdapterError JsonVal :=
  match resp.jsonBody with
  | none => .error (.providerError (orWrap jsonDecodeFailureMsg resp.text))
  | some body =>
    let choicesOpt := match body with
      | .obj fields => jsonLookup fields "choices"
      | _ => none
    match choicesOpt with
    | none => .error (.providerError (orWrap
        ("OpenRouter response does not contain \x27choices\x27: " ++ resp.text) resp.text))
    | some choices =>
      if choices.truthy = false then
        .error (.providerError (orWrap
          ("OpenRouter response does not contain \x27choices\x27: " ++ resp.text) resp.text))
      else
        match choices with
        | .arr (c0 :: _) =>
          match c0 with
          | .obj f0 =>
            let contentOf : List (String × JsonVal) → Except AdapterError JsonVal :=
              fun mf =>
                match jsonLookup mf "content" with
                | none => .error (.providerError (orWrap
                    ("Failed to parse OpenRouter response, \x27content\x27 is missing: "
                      ++ resp.text) resp.text))
                | some .null => .error (.providerError (orWrap
                    ("Failed to parse OpenRouter response, \x27content\x27 is missing: "
                      ++ resp.text) resp.text))
                | some v => .ok v
            match jsonLookup f0 "message" with
            | none => contentOf []
            | some (.obj mf) => contentOf mf
            | some _ => .error (.providerError (orWrap badShapeMsg resp.text))
          | _ => .error (.providerError (orWrap badShapeMsg resp.text))
        | _ => .error (.providerError (orWrap badShapeMsg resp.text))

/-- Embedding of `call_openrouter` (openrouter.py lines 9-61): fail with `ValueError` on
a missing or empty `OPENROUTER_API_KEY` before any network I/O; otherwise
POST once, fail with `Exception` on a non-200 status, else parse the JSON
body for `choices[0].message.content`. -/
def call_openrouter (env : ProviderEnv) (resp : HttpResponse) (_prompt : String) :
    AdapterOutcome JsonVal :=
  let api_key := (env.getenv "OPENROUTER_API_KEY").getD ""
  if api_key = "" then
    { ret := .error (.missingCredential "OPENROUTER_API_KEY is not set."),
      networkCalled := false }
  else if resp.status_code ≠ 200 then
    { ret := .error (.providerError ("OpenRouter API call failed with status "
        ++ toString resp.status_code ++ ": " ++ resp.text)),
      networkCalled := true }
  else
    { ret := parseOpenrouter200 resp, networkCalled := true }

/-- Embedding of `call_groq` (groq.py lines 10-37): fail with `ValueError` on a missing
or falsy `GROQ_API_KEY` before the SDK call; otherwise run the chain once,
wrapping any exception as `f"Groq API call failed: {e}"`. -/
def call_groq (env : ProviderEnv) (chain : Except String String) (_prompt : String) :
    AdapterOutcome String :=
  let api_key := (env.getenv "GROQ_API_KEY").getD ""
  if api_key = "" then
    { ret := .error (.missingCredential "GROQ_API_KEY is not set."),
      networkCalled := false }
  else
    match chain with
    | .error e =>
        { ret := .error (.providerError ("Groq API call failed: " ++ e)),
          networkCalled := true }
    | .ok t => { ret := .ok t, networkCalled := true }

/-- Embedding of `call_togetherai` (togetherai.py lines 10-41): same contract as
`call_groq` with the TogetherAI key and wrapper message. -/
def call_togetherai (env : ProviderEnv) (chain : Except String String) (_prompt : String) :
    AdapterOutcome String :=
  let api_key := (env.getenv "TOGETHERAI_API_KEY").getD ""
  if api_key = "" then
    { ret := .error (.missingCredential "TOGETHERAI_API_KEY is not set."),
      networkCalled := false }
  else
    match chain with
    | .error e =>
        { ret := .error (.providerError ("TogetherAI API call failed: " ++ e)),
          networkCalled := true }
    | .ok t => { ret := .ok t, networkCalled := true }

/-- Claim C7: each of the three adapters, invoked while its API-key
environment variable is absent, raises the missing-credential `ValueError`
and never reaches its network step. -/
theorem c7_missing_credential_before_network (env : ProviderEnv) (resp : HttpResponse)
    (chainG chainT : Except String String) (X : String)
    (h1 : env.getenv "OPENROUTER_API_KEY" = none)
    (h2 : env.getenv "GROQ_API_KEY" = none)
    (h3 : env.getenv "TOGETHERAI_API_KEY" = none) :
    ((call_openrouter env resp X).ret =
        .error (.missingCredential "OPENROUTER_API_KEY is not set.") ∧
     (call_openrouter env resp X).networkCalled = false) ∧
    ((call_groq env chainG X).ret =
        .error (.missingCredential "GROQ_API_KEY is not set.") ∧
     (call_groq env chainG X).networkCalled = false) ∧
    ((call_togetherai env chainT X).ret =
        .error (.missingCredential "TOGETHERAI_API_KEY is not set.") ∧
     (call_togetherai env chainT X).networkCalled = false) := by
  simp [call_openrouter, call_groq, call_togetherai, h1, h2, h3]

/-- Environment with no variables set at all. -/
def envNoKeys : ProviderEnv := ⟨fun _ => none⟩

theorem c7_witness :
    (envNoKeys.getenv "OPENROUTER_API_KEY" = none ∧
     envNoKeys.getenv "GROQ_API_KEY" = none ∧
     envNoKeys.getenv "TOGETHERAI_API_KEY" = none) ∧
    (((call_openrouter envNoKeys ⟨200, "", none⟩ "q").ret =
        .error (.missingCredential "OPENROUTER_API_KEY is not set.") ∧
      (call_openrouter envNoKeys ⟨200, "", none⟩ "q").networkCalled = false) ∧
     ((call_groq envNoKeys (.ok "r") "q").ret =
        .error (.missingCredential "GROQ_API_KEY is not set.") ∧
      (call_groq envNoKeys (.ok "r") "q").networkCalled = false) ∧
     ((call_togetherai envNoKeys (.ok "r") "q").ret =
        .error (.missingCredential "TOGETHERAI_API_KEY is not set.") ∧
      (call_togetherai envNoKeys (.ok "r") "q").networkCalled = false)) :=
  ⟨⟨rfl, rfl, rfl⟩,
    c7_missing_credential_before_network envNoKeys ⟨200, "", none⟩ (.ok "r") (.ok "r") "q"
      rfl rfl rfl⟩

/-- Claim C8: with the key set, the OpenRouter adapter (1) on a non-200
status raises an exception whose message carries both the status code and
the body text, (2) on a 200 response whose `choices[0].message` object
lacks `content` raises a wrapped parse exception, and (3) returns a
present-but-empty `content` string as a valid empty response. -/
theorem c8_openrouter_response_contract (env : ProviderEnv) (resp : HttpResponse)
    (X : String) (hkey : (env.getenv "OPENROUTER_API_KEY").getD "" ≠ "") :
    (resp.status_code ≠ 200 →
      (call_openrouter env resp X).ret = .error (.providerError
        ("OpenRouter API call failed with status " ++ toString resp.status_code
          ++ ": " ++ resp.text)) ∧
      containsStr ("OpenRouter API call failed with status " ++ toString resp.status_code
          ++ ": " ++ resp.text) (toString resp.status_code) ∧
      containsStr ("OpenRouter API call failed with status " ++ toString resp.status_code
          ++ ": " ++ resp.text) resp.text) ∧
    (∀ fields f0 mf rest, resp.status_code = 200 →
      resp.jsonBody = some (.obj fields) →
      jsonLookup fields "choices" = some (.arr (.obj f0 :: rest)) →
      jsonLookup f0 "message" = some (.obj mf) →
      jsonLookup mf "content" = none →
      ∃ m, (call_openrouter env resp X).ret = .error (.providerError m)) ∧
    (∀ fields f0 mf rest, resp.status_code = 200 →
      resp.jsonBody = some (.obj fields) →
      jsonLookup fields "choices" = some (.arr (.obj f0 :: rest)) →
      jsonLookup f0 "message" = some (.obj mf) →
      jsonLookup mf "content" = some (.str "") →
      (call_openrouter env resp X).ret = .ok (.str "")) := by
  refine ⟨fun hs => ⟨?_, ?_, ?_⟩, fun fields f0 mf rest hs hb hc hm hcont => ?_,
    fun fields f0 mf rest hs hb hc hm hcont => ?_⟩
  · simp [call_openrouter, hkey, hs]
  · exact ⟨"OpenRouter API call failed with status ".data, (": " ++ resp.text).data,
      by simp [String.data_append]⟩
  · exact ⟨("OpenRouter API call failed with status " ++ toString resp.status_code
        ++ ": ").data, [], by simp [String.data_append]⟩
  · refine ⟨orWrap ("Failed to parse OpenRouter response, \x27content\x27 is missing: "
      ++ resp.text) resp.text, ?_⟩
    simp [call_openrouter, hkey, hs, parseOpenrouter200, hb, hc, hm, hcont,
      JsonVal.truthy]
  · simp [call_openrouter, hkey, hs, parseOpenrouter200, hb, hc, hm, hcont,
      JsonVal.truthy]

/-- Environment holding only the OpenRouter key. -/
def envOR : ProviderEnv :=
  ⟨fun k => if k = "OPENROUTER_API_KEY" then some "sk-test" else none⟩

/-- The 500 / `"Internal Server Error"` scenario of the spec, evaluated
concretely through the theorem. -/
theorem c8_witness :
    ((envOR.getenv "OPENROUTER_API_KEY").getD "" ≠ "") ∧
    (call_openrouter envOR ⟨500, "Internal Server Error", none⟩ "q").ret =
      .error (.providerError
        "OpenRouter API call failed with status 500: Internal Server Error") :=
  ⟨by decide,
    ((c8_openrouter_response_contract envOR ⟨500, "Internal Server Error", none⟩ "q"
      (by decide)).1 (by decide)).1⟩

/-- A concrete environment for witnesses: default provider `groq`, every
provider function returns "pong", writes succeed. -/
def envPong : DispatchEnv :=
  { defaultProvider := "groq", adapters := fun _ _ => .ok "pong", writeFails := false }

example : (call_llm envPong "hi" (some "groq") true .absent).ret = .ok "pong" := rfl
example : (call_llm envPong "hi" (some "groq") true .absent).wroteFile = true := rfl
example :
    (call_llm envPong "hi" (some "groq") true .absent).cacheAfter =
      .snapshot [("groq_hi", "pong")] := rfl
example : (call_llm envPong "hi" (some "nope") true .absent).adapterInvoked = false := rfl
example : (call_llm envPong "hi" (some "") true .absent).ret = .ok "pong" := rfl

/-! Helper lemmas about the registry, name resolution and the cache
association list. -/

theorem pyLower_fixed_of_mem (P : String) (h : P ∈ PROVIDER_MAP) : pyLower P = P := by
  simp only [PROVIDER_MAP, List.mem_cons, List.mem_singleton, List.not_mem_nil] at h
  rcases h with rfl | rfl | h
  · rfl
  · rfl
  · simp at h; subst h; rfl

theorem ne_empty_of_mem (P : String) (h : P ∈ PROVIDER_MAP) : P ≠ "" := by
  simp only [PROVIDER_MAP, List.mem_cons, List.mem_singleton, List.not_mem_nil] at h
  rcases h with rfl | rfl | h
  · decide
  · decide
  · simp at h; subst h; decide

theorem resolveName_some_of_mem (P d : String) (h : P ∈ PROVIDER_MAP) :
    resolveName (some P) d = P := by
  show pyLower (if P = "" then d else P) = P
  rw [if_neg (ne_empty_of_mem P h)]
  exact pyLower_fixed_of_mem P h

theorem contains_of_mem (P : String) (h : P ∈ PROVIDER_MAP) :
    PROVIDER_MAP.contains P = true := by
  exact List.elem_eq_true_of_mem h

theorem lookupEntry_insertEntry_self (es : List (String × String)) (k v : String) :
    lookupEntry (insertEntry es k v) k = some v := by
  induction es with
  | nil => simp [insertEntry, lookupEntry]
  | cons e es ih =>
      by_cases he : e.1 = k
      · simp [insertEntry, he, lookupEntry]
      · simp [insertEntry, he, lookupEntry, ih]

/-- No registered provider identifier contains the underscore separator:
this is what makes naive `name ++ "_" ++ prompt` keys non-colliding on the
registered set. -/
theorem no_underscore_of_mem (P : String) (h : P ∈ PROVIDER_MAP) : '_' ∉ P.data := by
  simp only [PROVIDER_MAP, List.mem_cons, List.mem_singleton, List.not_mem_nil] at h
  rcases h with rfl | rfl | h
  · decide
  · decide
  · simp at h; subst h; decide

/-- Splitting a list at a separator absent from both prefixes is unique. -/
theorem sep_split_unique : ∀ (l1 l2 x1 x2 : List Char),
    '_' ∉ l1 → '_' ∉ l2 → l1 ++ '_' :: x1 = l2 ++ '_' :: x2 → l1 = l2 ∧ x1 = x2 := by
  intro l1
  induction l1 with
  | nil =>
      intro l2 x1 x2 _ h2 heq
      cases l2 with
      | nil => simpa using heq
      | cons d l2 =>
          simp only [List.nil_append, List.cons_append, List.cons.injEq] at heq
          exact absurd (heq.1 ▸ List.mem_cons_self d l2) h2
  | cons c l1 ih =>
      intro l2 x1 x2 h1 h2 heq
      cases l2 with
      | nil =>
          simp only [List.nil_append, List.cons_append, List.cons.injEq] at heq
          exact absurd (heq.1.symm ▸ List.mem_cons_self c l1) h1
      | cons d l2 =>
          simp only [List.cons_append, List.cons.injEq] at heq
          obtain ⟨rfl, heq2⟩ := heq
          have h1t : '_' ∉ l1 := fun hm => h1 (List.mem_cons_of_mem c hm)
          have h2t : '_' ∉ l2 := fun hm => h2 (List.mem_cons_of_mem c hm)
          obtain ⟨hl, hx⟩ := ih l2 x1 x2 h1t h2t heq2
          exact ⟨by rw [hl], hx⟩

theorem cacheKey_data (name prompt : String) :
    (cacheKey name prompt).data = name.data ++ '_' :: prompt.data := by
  simp [cacheKey, String.data_append]

/-- Claim C3: the cache-key derivation `name ++ "_" ++ prompt` is injective
on pairs of a registered provider and a prompt: equal keys force equal
providers and equal prompts (so two distinct pairs, in particular two
different providers with the same prompt, never share a key). -/
theorem c3_cache_key_injective (P1 P2 X1 X2 : String)
    (h1 : P1 ∈ PROVIDER_MAP) (h2 : P2 ∈ PROVIDER_MAP)
    (heq : cacheKey P1 X1 = cacheKey P2 X2) : P1 = P2 ∧ X1 = X2 := by
  have hd := congrArg String.data heq
  rw [cacheKey_data, cacheKey_data] at hd
  obtain ⟨hp, hx⟩ := sep_split_unique P1.data P2.data X1.data X2.data
    (no_underscore_of_mem P1 h1) (no_underscore_of_mem P2 h2) hd
  exact ⟨String.ext hp, String.ext hx⟩

theorem c3_witness : "groq" ∈ PROVIDER_MAP ∧ ("groq" = "groq" ∧ "hi" = "hi") :=
  ⟨by decide, c3_cache_key_injective "groq" "groq" "hi" "hi" (by decide) (by decide) rfl⟩

/-- Any result of the known-provider path returns either the text (cached
or fresh) or a re-raised adapter exception — never the unknown-provider
`ValueError`. -/
theorem dispatchKnown_ret_not_unknown (env : DispatchEnv) (name prompt : String)
    (uc : Bool) (file : CacheFile) (m : String) :
    (dispatchKnown env name prompt uc file).ret ≠ .error (.unknownProvider m) := by
  unfold dispatchKnown invokeAndMaybeCache
  rcases uc with _ | _
  · simp only [Bool.false_eq_true, if_false]
    rcases env.adapters name prompt with e | t <;> simp
  · simp only [if_true]
    rcases lookupEntry (loadCache file).1 (cacheKey name prompt) with _ | c
    · simp only []
      rcases env.adapters name prompt with e | t
      · simp
      · rcases hw : env.writeFails with _ | _ <;> simp [hw]
    · simp

/-- Claim C10: passing `provider=""` behaves exactly like omitting the
provider: the falsy empty string falls through `provider or
DEFAULT_PROVIDER`, so the configured (registry-validated) default is used
and no `UnknownProviderError` is raised. -/
theorem c10_empty_provider_uses_default (env : DispatchEnv) (X : String)
    (uc : Bool) (file : CacheFile) (hd : env.defaultProvider ∈ PROVIDER_MAP) :
    call_llm env X (some "") uc file = call_llm env X none uc file ∧
    ∀ m, (call_llm env X (some "") uc file).ret ≠ .error (.unknownProvider m) := by
  refine ⟨rfl, fun m => ?_⟩
  have hres : resolveName (some "") env.defaultProvider = env.defaultProvider := by
    unfold resolveName
    simpa using pyLower_fixed_of_mem _ hd
  unfold call_llm
  rw [hres, if_pos (contains_of_mem _ hd)]
  exact dispatchKnown_ret_not_unknown env _ X uc file m

/-- For a registered provider passed explicitly, `call_llm` reduces to the
known-provider path. -/
theorem call_llm_known (env : DispatchEnv) (P X : String) (uc : Bool) (file : CacheFile)
    (hP : P ∈ PROVIDER_MAP) :
    call_llm env X (some P) uc file = dispatchKnown env P X uc file := by
  unfold call_llm
  rw [resolveName_some_of_mem P env.defaultProvider hP]
  simp only [contains_of_mem P hP, if_true]

/-- The cache-read phase on a miss falls through to the provider call. -/
theorem dispatchKnown_miss (env : DispatchEnv) (name X : String) (file : CacheFile)
    (hmiss : lookupEntry (loadCache file).1 (cacheKey name X) = none) :
    dispatchKnown env name X true file =
      invokeAndMaybeCache env name X (cacheKey name X) true file
        ([LogEvent.promptLogged X] ++
          (if (loadCache file).2 then [LogEvent.warnCacheLoadFailed] else [])) := by
  unfold dispatchKnown
  simp only [if_true, hmiss]

/-- The cache-read phase on a hit returns immediately. -/
theorem dispatchKnown_hit (env : DispatchEnv) (name X : String) (file : CacheFile)
    (c : String)
    (hhit : lookupEntry (loadCache file).1 (cacheKey name X) = some c) :
    dispatchKnown env name X true file =
      { ret := .ok c, cacheAfter := file, adapterInvoked := false,
        readFile := file.fileExists, wroteFile := false,
        logs := ([LogEvent.promptLogged X] ++
          (if (loadCache file).2 then [LogEvent.warnCacheLoadFailed] else [])) ++
          [LogEvent.responseCached c] } := by
  unfold dispatchKnown
  simp only [if_true, hhit]

/-- Re-raising an adapter exception, as a record equation. -/
theorem invoke_error_eq (env : DispatchEnv) (name X key : String) (uc : Bool)
    (file : CacheFile) (logs : List LogEvent) (e : AdapterError)
    (ha : env.adapters name X = .error e) :
    invokeAndMaybeCache env name X key uc file logs =
      { ret := .error (.fromAdapter e), cacheAfter := file, adapterInvoked := true,
        readFile := uc && file.fileExists, wroteFile := false,
        logs := logs ++ [LogEvent.errorProvider e] } := by
  unfold invokeAndMaybeCache
  simp [ha]

/-- A successful provider call followed by a successful snapshot write. -/
theorem invoke_ok_written_eq (env : DispatchEnv) (name X key : String)
    (file : CacheFile) (logs : List LogEvent) (rt : String)
    (ha : env.adapters name X = .ok rt) (hwf : env.writeFails = false) :
    invokeAndMaybeCache env name X key true file logs =
      { ret := .ok rt, cacheAfter := .snapshot (insertEntry (loadCache file).1 key rt),
        adapterInvoked := true, readFile := file.fileExists, wroteFile := true,
        logs := (logs ++ [LogEvent.responseAPI rt]) ++
          (if (loadCache file).2 then [LogEvent.warnSaveLoadFailed] else []) } := by
  unfold invokeAndMaybeCache
  simp [ha, hwf]

/-- A successful provider call whose snapshot write fails. -/
theorem invoke_ok_unwritten_eq (env : DispatchEnv) (name X key : String)
    (file : CacheFile) (logs : List LogEvent) (rt : String)
    (ha : env.adapters name X = .ok rt) (hwf : env.writeFails = true) :
    invokeAndMaybeCache env name X key true file logs =
      { ret := .ok rt, cacheAfter := file,
        adapterInvoked := true, readFile := file.fileExists, wroteFile := false,
        logs := ((logs ++ [LogEvent.responseAPI rt]) ++
          (if (loadCache file).2 then [LogEvent.warnSaveLoadFailed] else [])) ++
          [LogEvent.errorCacheSaveFailed] } := by
  unfold invokeAndMaybeCache
  simp [ha, hwf]

/-- Claim C1: after a first successful cache-enabled call that wrote its
response into the cache file, a second cache-enabled call with the same
registered provider and prompt on the unchanged file returns the same text
from the cache hit and does not invoke the provider function. -/
theorem c1_cache_hit_idempotent (env : DispatchEnv) (P X t : String) (file : CacheFile)
    (hP : P ∈ PROVIDER_MAP)
    (h1 : (call_llm env X (some P) true file).ret = .ok t)
    (hw : (call_llm env X (some P) true file).wroteFile = true) :
    (call_llm env X (some P) true (call_llm env X (some P) true file).cacheAfter).ret
        = .ok t ∧
    (call_llm env X (some P) true
        (call_llm env X (some P) true file).cacheAfter).adapterInvoked = false := by
  rw [call_llm_known env P X true file hP] at h1 hw ⊢
  rcases hl : lookupEntry (loadCache file).1 (cacheKey P X) with _ | c
  · rw [dispatchKnown_miss env P X file hl] at h1 hw ⊢
    rcases ha : env.adapters P X with e | rt
    · rw [invoke_error_eq env P X _ true file _ e ha] at h1
      simp at h1
    · rcases hwf : env.writeFails with _ | _
      · rw [invoke_ok_written_eq env P X _ file _ rt ha hwf] at h1 ⊢
        obtain rfl : rt = t := by simpa using h1
        rw [call_llm_known env P X true _ hP,
          dispatchKnown_hit env P X _ rt
            (by simp [loadCache, lookupEntry_insertEntry_self])]
        exact ⟨rfl, rfl⟩
      · rw [invoke_ok_unwritten_eq env P X _ file _ rt ha hwf] at hw
        simp at hw
  · rw [dispatchKnown_hit env P X file c hl] at hw
    simp at hw

theorem c1_witness :
    "groq" ∈ PROVIDER_MAP ∧
    ((call_llm envPong "hi" (some "groq") true
        (call_llm envPong "hi" (some "groq") true .absent).cacheAfter).ret = .ok "pong" ∧
     (call_llm envPong "hi" (some "groq") true
        (call_llm envPong "hi" (some "groq") true .absent).cacheAfter).adapterInvoked
          = false) :=
  ⟨by decide, c1_cache_hit_idempotent envPong "groq" "hi" "pong" .absent (by decide) rfl rfl⟩

/-- Claim C9: when the provider function raises on a cache-enabled miss,
the exception is re-raised to the caller and the cache file is left exactly
as it was — the write step is never reached. -/
theorem c9_no_write_on_adapter_error (env : DispatchEnv) (P X : String) (e : AdapterError)
    (file : CacheFile) (hP : P ∈ PROVIDER_MAP)
    (hmiss : lookupEntry (loadCache file).1 (cacheKey P X) = none)
    (herr : env.adapters P X = .error e) :
    (call_llm env X (some P) true file).ret = .error (.fromAdapter e) ∧
    (call_llm env X (some P) true file).cacheAfter = file ∧
    (call_llm env X (some P) true file).wroteFile = false := by
  rw [call_llm_known env P X true file hP, dispatchKnown_miss env P X file hmiss]
  unfold invokeAndMaybeCache
  simp [herr]

/-- A provider function that always raises a generic exception, for
exercising the error path. -/
def envBoom : DispatchEnv :=
  { defaultProvider := "groq",
    adapters := fun _ _ => .error (.providerError "boom"), writeFails := false }

theorem c9_witness :
    "groq" ∈ PROVIDER_MAP ∧
    lookupEntry (loadCache .absent).1 (cacheKey "groq" "hi") = none ∧
    envBoom.adapters "groq" "hi" = .error (.providerError "boom") ∧
    ((call_llm envBoom "hi" (some "groq") true .absent).ret =
        .error (.fromAdapter (.providerError "boom")) ∧
     (call_llm envBoom "hi" (some "groq") true .absent).cacheAfter = .absent ∧
     (call_llm envBoom "hi" (some "groq") true .absent).wroteFile = false) :=
  ⟨by decide, rfl, rfl,
    c9_no_write_on_adapter_error envBoom "groq" "hi" (.providerError "boom") .absent
      (by decide) rfl rfl⟩

/-- Claim C5: when the provider call succeeds but writing the cache
snapshot back fails, the fresh response is still returned, the file is left
unchanged, and the failure is only logged. -/
theorem c5_write_failure_nonfatal (env : DispatchEnv) (P X t : String) (file : CacheFile)
    (hP : P ∈ PROVIDER_MAP)
    (hmiss : lookupEntry (loadCache file).1 (cacheKey P X) = none)
    (hok : env.adapters P X = .ok t)
    (hwf : env.writeFails = true) :
    (call_llm env X (some P) true file).ret = .ok t ∧
    (call_llm env X (some P) true file).cacheAfter = file ∧
    (call_llm env X (some P) true file).wroteFile = false ∧
    LogEvent.errorCacheSaveFailed ∈ (call_llm env X (some P) true file).logs := by
  rw [call_llm_known env P X true file hP, dispatchKnown_miss env P X file hmiss]
  unfold invokeAndMaybeCache
  simp [hok, hwf]

/-- Like `envPong` but with a failing cache write. -/
def envReadOnly : DispatchEnv :=
  { defaultProvider := "groq", adapters := fun _ _ => .ok "pong", writeFails := true }

theorem c5_witness :
    "groq" ∈ PROVIDER_MAP ∧
    ((call_llm envReadOnly "hi" (some "groq") true .absent).ret = .ok "pong" ∧
     (call_llm envReadOnly "hi" (some "groq") true .absent).cacheAfter = .absent ∧
     (call_llm envReadOnly "hi" (some "groq") true .absent).wroteFile = false ∧
     LogEvent.errorCacheSaveFailed ∈ (call_llm envReadOnly "hi" (some "groq") true .absent).logs) :=
  ⟨by decide,
    c5_write_failure_nonfatal envReadOnly "groq" "hi" "pong" .absent (by decide) rfl rfl rfl⟩

/-- Claim C6: the cache read never fails a call.  A missing cache file acts
as an empty cache with no warning; an unparseable file logs a warning, is
treated as empty, and the call proceeds to invoke the provider function,
returning exactly what it would on a missing file. -/
theorem c6_cache_read_never_fails (env : DispatchEnv) (P X : String)
    (hP : P ∈ PROVIDER_MAP) :
    (call_llm env X (some P) true .absent).adapterInvoked = true ∧
    (call_llm env X (some P) true .corrupt).adapterInvoked = true ∧
    (call_llm env X (some P) true .corrupt).ret = (call_llm env X (some P) true .absent).ret ∧
    LogEvent.warnCacheLoadFailed ∈ (call_llm env X (some P) true .corrupt).logs ∧
    LogEvent.warnCacheLoadFailed ∉ (call_llm env X (some P) true .absent).logs := by
  rw [call_llm_known env P X true .absent hP, call_llm_known env P X true .corrupt hP,
    dispatchKnown_miss env P X .absent (by simp [loadCache, lookupEntry]),
    dispatchKnown_miss env P X .corrupt (by simp [loadCache, lookupEntry])]
  unfold invokeAndMaybeCache
  rcases ha : env.adapters P X with e | rt <;>
    rcases hwf : env.writeFails with _ | _ <;>
      simp [ha, hwf, loadCache, LogEvent.warnCacheLoadFailed]

theorem c6_witness :
    "groq" ∈ PROVIDER_MAP ∧
    ((call_llm envPong "hi" (some "groq") true .absent).adapterInvoked = true ∧
     (call_llm envPong "hi" (some "groq") true .corrupt).adapterInvoked = true ∧
     (call_llm envPong "hi" (some "groq") true .corrupt).ret =
        (call_llm envPong "hi" (some "groq") true .absent).ret ∧
     LogEvent.warnCacheLoadFailed ∈ (call_llm envPong "hi" (some "groq") true .corrupt).logs ∧
     LogEvent.warnCacheLoadFailed ∉ (call_llm envPong "hi" (some "groq") true .absent).logs) :=
  ⟨by decide, c6_cache_read_never_fails envPong "groq" "hi" (by decide)⟩

/-- Claim C4 is refuted at a concrete input: a cache-enabled call answered
from a cache hit reads the file but does NOT write the snapshot back. -/
theorem c4_counterexample :
    (call_llm envPong "hello" (some "groq") true (.snapshot [("groq_hello", "hi")])).ret
        = .ok "hi" ∧
    (call_llm envPong "hello" (some "groq") true
        (.snapshot [("groq_hello", "hi")])).readFile = true ∧
    (call_llm envPong "hello" (some "groq") true
        (.snapshot [("groq_hello", "hi")])).wroteFile = false ∧
    (call_llm envPong "hello" (some "groq") true
        (.snapshot [("groq_hello", "hi")])).cacheAfter = .snapshot [("groq_hello", "hi")] :=
  ⟨rfl, rfl, rfl, rfl⟩

/-- Claim C4 as amended: a cache-enabled call reads the cache file exactly
when it exists, but the snapshot is written back only on a cache miss whose
provider invocation succeeds and whose write itself does not fail; a
cache-hit call returns without rewriting the file. -/
theorem c4_read_each_call_write_on_miss (env : DispatchEnv) (P X : String)
    (file : CacheFile) (hP : P ∈ PROVIDER_MAP) :
    (call_llm env X (some P) true file).readFile = file.fileExists ∧
    ((call_llm env X (some P) true file).wroteFile = true ↔
      (lookupEntry (loadCache file).1 (cacheKey P X) = none ∧
       (∃ t, env.adapters P X = .ok t) ∧ env.writeFails = false)) := by
  rw [call_llm_known env P X true file hP]
  rcases hl : lookupEntry (loadCache file).1 (cacheKey P X) with _ | c
  · rw [dispatchKnown_miss env P X file hl]
    unfold invokeAndMaybeCache
    rcases ha : env.adapters P X with e | rt <;>
      rcases hwf : env.writeFails with _ | _ <;> simp [ha, hwf]
  · rw [dispatchKnown_hit env P X file c hl]
    simp [hl]

theorem c4_witness :
    "groq" ∈ PROVIDER_MAP ∧
    ((call_llm envPong "hi" (some "groq") true .absent).readFile =
        CacheFile.fileExists .absent ∧
     ((call_llm envPong "hi" (some "groq") true .absent).wroteFile = true ↔
       (lookupEntry (loadCache .absent).1 (cacheKey "groq" "hi") = none ∧
        (∃ t, envPong.adapters "groq" "hi" = .ok t) ∧ envPong.writeFails = false))) :=
  ⟨by decide, c4_read_each_call_write_on_miss envPong "groq" "hi" .absent (by decide)⟩

theorem invalidProviderMsg_data (name : String) :
    (invalidProviderMsg name).data =
      "Invalid provider: ".data ++ name.data ++
        (". Available providers: ".data ++ availRendering.data) := by
  simp [invalidProviderMsg, String.data_append]

/-- The unknown-provider message enumerates every registered provider
identifier. -/
theorem invalidProviderMsg_enumerates (name : String) :
    ∀ p ∈ PROVIDER_MAP, containsStr (invalidProviderMsg name) p := by
  intro p hp
  simp only [PROVIDER_MAP, List.mem_cons, List.mem_singleton, List.not_mem_nil] at hp
  have base := invalidProviderMsg_data name
  rcases hp with rfl | rfl | hp
  · refine ⟨"Invalid provider: ".data ++ name.data ++ ". Available providers: [\x27".data,
      "\x27, \x27groq\x27, \x27togetherai\x27]".data, ?_⟩
    rw [base]
    have hsplit : ". Available providers: ".data ++ availRendering.data =
        ". Available providers: [\x27".data ++ "openrouter".data ++
          "\x27, \x27groq\x27, \x27togetherai\x27]".data := by decide
    rw [hsplit]
    simp [List.append_assoc]
  · refine ⟨"Invalid provider: ".data ++ name.data ++
      ". Available providers: [\x27openrouter\x27, \x27".data,
      "\x27, \x27togetherai\x27]".data, ?_⟩
    rw [base]
    have hsplit : ". Available providers: ".data ++ availRendering.data =
        ". Available providers: [\x27openrouter\x27, \x27".data ++ "groq".data ++
          "\x27, \x27togetherai\x27]".data := by decide
    rw [hsplit]
    simp [List.append_assoc]
  · simp at hp
    subst hp
    refine ⟨"Invalid provider: ".data ++ name.data ++
      ". Available providers: [\x27openrouter\x27, \x27groq\x27, \x27".data,
      "\x27]".data, ?_⟩
    rw [base]
    have hsplit : ". Available providers: ".data ++ availRendering.data =
        ". Available providers: [\x27openrouter\x27, \x27groq\x27, \x27".data ++
          "togetherai".data ++ "\x27]".data := by decide
    rw [hsplit]
    simp [List.append_assoc]

/-- Claim C2 is refuted at the empty identifier: `""` lowercases to a
string that is not a registry key, yet `call_llm` does not raise — the
falsy argument falls back to the default provider and the call succeeds
with the provider function invoked. -/
theorem c2_counterexample :
    pyLower "" ∉ PROVIDER_MAP ∧
    (call_llm envPong "x" (some "") true .absent).ret = .ok "pong" ∧
    (call_llm envPong "x" (some "") true .absent).adapterInvoked = true :=
  ⟨by decide, rfl, rfl⟩

/-- Claim C2 as amended: for every NON-EMPTY identifier whose lowercasing
is not a registry key, `call_llm` raises the unknown-provider `ValueError`
whose message enumerates the valid provider identifiers, and no provider
function is invoked. -/
theorem c2_unknown_provider_rejected (env : DispatchEnv) (X s : String) (uc : Bool)
    (file : CacheFile) (hne : s ≠ "") (h : pyLower s ∉ PROVIDER_MAP) :
    (call_llm env X (some s) uc file).ret =
      .error (.unknownProvider (invalidProviderMsg (pyLower s))) ∧
    (call_llm env X (some s) uc file).adapterInvoked = false ∧
    (call_llm env X (some s) uc file).cacheAfter = file ∧
    ∀ p ∈ PROVIDER_MAP, containsStr (invalidProviderMsg (pyLower s)) p := by
  have hres : resolveName (some s) env.defaultProvider = pyLower s := by
    show pyLower (if s = "" then env.defaultProvider else s) = pyLower s
    rw [if_neg hne]
  have hcf : PROVIDER_MAP.contains (pyLower s) = false := by
    rcases hb : PROVIDER_MAP.contains (pyLower s) with _ | _
    · rfl
    · exact absurd (List.mem_of_elem_eq_true hb) h
  simp only [call_llm, hres, hcf, Bool.false_eq_true, if_false]
  exact ⟨trivial, trivial, trivial, invalidProviderMsg_enumerates (pyLower s)⟩

theorem c2_witness :
    ("nope" : String) ≠ "" ∧ pyLower "nope" ∉ PROVIDER_MAP ∧
    ((call_llm envPong "x" (some "nope") true .absent).ret =
        .error (.unknownProvider (invalidProviderMsg (pyLower "nope"))) ∧
     (call_llm envPong "x" (some "nope") true .absent).adapterInvoked = false ∧
     (call_llm envPong "x" (some "nope") true .absent).cacheAfter = .absent ∧
     ∀ p ∈ PROVIDER_MAP, containsStr (invalidProviderMsg (pyLower "nope")) p) :=
  ⟨by decide, by decide,
    c2_unknown_provider_rejected envPong "x" "nope" true .absent (by decide) (by decide)⟩

theorem c10_witness :
    envPong.defaultProvider ∈ PROVIDER_MAP ∧
    (call_llm envPong "hi" (some "") true .absent = call_llm envPong "hi" none true .absent ∧
     ∀ m, (call_llm envPong "hi" (some "") true .absent).ret ≠ .error (.unknownProvider m)) :=
  ⟨by decide, c10_empty_provider_uses_default envPong "hi" true .absent (by decide)⟩
